import Mathlib

/-!
Verification of the Trading-signal-agent repository.

Shallow embedding of the signal engine (src/src/engine/SignalEngine.js), the
support/resistance detector (src/src/engine/SRDetector.js) and the backtest
outcome simulator (src/src/backtest.js) over exact rational arithmetic.
JavaScript numbers are modelled as ℚ; `Math.round` and `toFixed(2)` are
modelled as exact half-up rounding; JavaScript truthiness of a numeric field
is modelled as the value being nonzero, and of an object field as an `Option`
being `some`.  Division by zero yields 0 in ℚ where JavaScript would produce
NaN or an infinity; no theorem below depends on such a case.
-/

set_option allowUnsafeReducibility true

attribute [semireducible] Rat.mul Rat.inv Rat.add Rat.sub Rat.div Rat.neg

namespace TradingAgent

/-- JavaScript `Math.round`: round half toward positive infinity. -/
def jround (q : ℚ) : ℚ := ((Int.fdiv (q + 1/2).num (q + 1/2).den : ℤ) : ℚ)

/-- JavaScript `parseFloat(x.toFixed(2))`: round to two decimal places. -/
def round2 (q : ℚ) : ℚ := jround (q * 100) / 100

/-- JavaScript `Array.prototype.slice(a, b)` for non-negative indices. -/
def jsSlice (l : List α) (a b : ℕ) : List α := (l.drop a).take (b - a)

/-- JavaScript `slice(-n)`: the last `n` elements (whole list when shorter). -/
def takeRight (l : List α) (n : ℕ) : List α := l.drop (l.length - n)

/-- Last element with a default (JS `l[l.length - 1]`, lists here nonempty). -/
def lastD (l : List ℚ) (d : ℚ) : ℚ := (l.getLast?).getD d

/-- JS `l[l.length - 2]`, `undefined` when the list has fewer than 2 items. -/
def secondLast? (l : List α) : Option α :=
  if l.length < 2 then none else l.get? (l.length - 2)

/-- `Math.max(...l)` as a comparison: `p > Math.max(...l)` is `gtAll p l`
(true on the empty list, where JS gives `p > -Infinity`). -/
def gtAll (p : ℚ) (l : List ℚ) : Bool := l.all fun v => decide (p > v)

/-- `p < Math.min(...l)` (true on the empty list). -/
def ltAll (p : ℚ) (l : List ℚ) : Bool := l.all fun v => decide (p < v)

/-- `Math.max(...l)` with an explicit default for the empty list (JS would
give `-Infinity`; every use below is on a nonempty list). -/
def listMaxD (l : List ℚ) (d : ℚ) : ℚ := (l.max?).getD d

/-- `Math.min(...l)` with an explicit default for the empty list. -/
def listMinD (l : List ℚ) (d : ℚ) : ℚ := (l.min?).getD d

/-- Test a JS value that may be `undefined`/`null` (object truthiness). -/
def opt2 (a : Option α) (b : Option β) (p : α → β → Bool) : Bool :=
  match a, b with
  | some x, some y => p x y
  | _, _ => false

/-- One OHLC bar.  The JS field `open` is `open_` here (`open` is reserved). -/
structure Candle where
  open_ : ℚ
  high : ℚ
  low : ℚ
  close : ℚ
deriving DecidableEq

def cdef : Candle := ⟨0, 0, 0, 0⟩

inductive Action | BUY | SELL | HOLD
deriving DecidableEq

inductive Trend | BULLISH | BEARISH | NEUTRAL
deriving DecidableEq

inductive Volatility | HIGH | LOW | SQUEEZE | NORMAL
deriving DecidableEq

inductive Session | OVERLAP | LONDON | NEW_YORK | ASIAN | OFF_HOURS
deriving DecidableEq

inductive Regime | TRENDING | BREAKOUT | RANGING
deriving DecidableEq

inductive PriceStructure | BULLISH_STRUCTURE | BEARISH_STRUCTURE | NONE
deriving DecidableEq

inductive StochPersist | OVERBOUGHT_PERSISTENT | OVERSOLD_PERSISTENT | NONE
deriving DecidableEq

inductive RsiPersist | HIGH_PERSISTENT | LOW_PERSISTENT | NONE
deriving DecidableEq

/-- The `blocks` tag of a conflict entry in `generateSignal`. -/
inductive Block | BUY | SELL | BOTH
deriving DecidableEq, BEq

/-- The reason/warning strings pushed by `generateSignal`, as tags (the
interpolated numbers of the JS strings are dropped; no control flow reads
them back). -/
inductive Msg
  | emaBullCross | emaBearCross
  | macdBullCross | macdBearCross
  | stochBullCrossWeak | stochBullCrossStrong
  | stochBearCrossWeak | stochBearCrossStrong
  | cciUp | cciDown
  | breakoutHigh | breakdownLow
  | rsiExitOversold | rsiExitOverbought
  | emaAlignBull | emaAlignBear
  | priceAboveEmas | priceBelowEmas
  | macdBullState | macdBearState
  | macdMomentumUp | macdMomentumDown
  | rsiOversoldState | rsiOverboughtState
  | rsiRisingLow | rsiFallingHigh
  | stochOversoldState | stochOverboughtState
  | bbLowerState | bbUpperState
  | adxBullState | adxBearState
  | blockedBuyConflict | blockedSellConflict
  | weakEventOnly
  | blockedStrongBearTrend | blockedStrongBullTrend
  | againstBearTrend | againstBullTrend
  | withBullTrend | withBearTrend
  | bullStructureBoost | bearStructureBoost
  | overlapSession | asianSession
  | highVolatility
  | confidenceTooLow | rrTooLow
deriving DecidableEq

structure MACDPoint where
  MACD : ℚ
  signal : ℚ
  histogram : ℚ
deriving DecidableEq

structure StochPoint where
  k : ℚ
  d : ℚ
deriving DecidableEq

structure ADXPoint where
  adx : ℚ
  pdi : ℚ
  mdi : ℚ
deriving DecidableEq

structure BBPoint where
  upper : ℚ
  middle : ℚ
  lower : ℚ
deriving DecidableEq

/-- The support/resistance pair stored in `ctx.sr`. -/
structure SR where
  support : ℚ
  resistance : ℚ
deriving DecidableEq

/-- The snapshot built by `calcIndicators` (SignalEngine.js lines 55-74).
Numeric fields that the engine tests for JS truthiness keep type ℚ with 0 as
the falsy value; object-valued fields are `Option`s. -/
structure Indicators where
  price : ℚ
  prevPrice : ℚ
  rsi : ℚ
  rsiPrev : ℚ
  rsiHistory : List ℚ
  macd : Option MACDPoint
  macdPrev : Option MACDPoint
  macdPrev2 : Option MACDPoint
  ema9 : ℚ
  ema21 : ℚ
  ema50 : ℚ
  sma200 : Option ℚ
  ema9Prev : ℚ
  ema21Prev : ℚ
  bb : Option BBPoint
  atr : ℚ
  atr7 : ℚ
  atrPrev : ℚ
  stoch : Option StochPoint
  stochPrev : Option StochPoint
  stochHistory : List StochPoint
  adx : Option ADXPoint
  cci : Option ℚ
  cciPrev : Option ℚ
  recentHighs : List ℚ
  recentLows : List ℚ
  recentCloses : List ℚ
deriving DecidableEq

/-- The context built by `getContext` (SignalEngine.js lines 159-198). -/
structure Context where
  trend : Trend
  trendStrength : ℚ
  volatility : Volatility
  session : Session
  regime : Regime
  sr : SR
deriving DecidableEq

/-- The result of `analyzeMomentum` (SignalEngine.js lines 87-157). -/
structure Momentum where
  bullishCandles : ℕ
  bearishCandles : ℕ
  higherHighs : ℕ
  higherLows : ℕ
  lowerHighs : ℕ
  lowerLows : ℕ
  priceStructure : PriceStructure
  stochPersistence : StochPersist
  rsiPersistence : RsiPersist
  moveSize : ℚ
  isMomentumMove : Bool
deriving DecidableEq

/-- Engine configuration (SignalEngine.js constructor).  The JS constructor
applies `config.minConfluence || 3` and `config.minRR || 1.5`; the resolved
values are carried here and `defaultConfig` is the default resolution. -/
structure Config where
  minConfluence : ℕ
  minRR : ℚ
deriving DecidableEq

def defaultConfig : Config := ⟨3, 3/2⟩

/-- The signal record returned by `generateSignal`/`holdResult`.  The
`timestamp: Date.now()` field and the string-formatted `indicators`/`momentum`
digests of the JS record are omitted (pure formatting, never read back). -/
structure Signal where
  symbol : String
  action : Action
  confidence : ℚ
  price : ℚ
  stopLoss : ℚ
  takeProfit : ℚ
  riskReward : ℚ
  reasons : List Msg
  warnings : List Msg
  context : Context
  confluenceCount : ℕ
  eventCount : ℕ
  stateCount : ℕ

/-! ### The indicator library, modelled from the spec

The engine imports RSI, MACD, EMA, SMA, BollingerBands, ATR, Stochastic, ADX
and CCI from the external `technicalindicators` package, which is not part of
this repository's sources.  Per the spec (§4.1): "All indicator math follows
standard closed-form recursive definitions (EMA smoothing, Wilder's ADX/ATR,
stochastic %K/%D with a 3-period signal, CCI over 20 periods)."  The
definitions below are modelled from those words.  Every one is total on
numeric input (it returns a — possibly empty — list), which is what the
engine's `try/catch` wrapper relies on.  No theorem below depends on the
numeric values these produce, only on their totality. -/

/-- Modelled from the spec: simple moving average over sliding windows. -/
def SMAcalc (period : ℕ) (values : List ℚ) : List ℚ :=
  if period = 0 then [] else
  (List.range (values.length + 1 - period)).map fun i =>
    ((values.drop i).take period).sum / (period : ℚ)

/-- Modelled from the spec: exponential moving average, seeded with the SMA
of the first `period` values, smoothing factor `2/(period+1)`. -/
def EMAcalc (period : ℕ) (values : List ℚ) : List ℚ :=
  if period = 0 ∨ values.length < period then [] else
  let seed := (values.take period).sum / (period : ℚ)
  let k : ℚ := 2 / ((period : ℚ) + 1)
  (values.drop period).scanl (fun prev v => (v - prev) * k + prev) seed

/-- Modelled from the spec: Wilder smoothing, seeded with the plain average
of the first `period` inputs. -/
def wilder (period : ℕ) (xs : List ℚ) : List ℚ :=
  if period = 0 ∨ xs.length < period then [] else
  let seed := (xs.take period).sum / (period : ℚ)
  (xs.drop period).scanl
    (fun prev x => (prev * ((period : ℚ) - 1) + x) / (period : ℚ)) seed

/-- Modelled from the spec: Wilder RSI from smoothed average gains/losses. -/
def RSIcalc (period : ℕ) (values : List ℚ) : List ℚ :=
  let changes := (values.drop 1).zipWith (· - ·) values
  if period = 0 ∨ changes.length < period then [] else
  let seedG := ((changes.take period).map fun c => max c 0).sum / (period : ℚ)
  let seedL := ((changes.take period).map fun c => max (-c) 0).sum / (period : ℚ)
  let pairs := (changes.drop period).scanl
    (fun (p : ℚ × ℚ) c =>
      ((p.1 * ((period : ℚ) - 1) + max c 0) / (period : ℚ),
       (p.2 * ((period : ℚ) - 1) + max (-c) 0) / (period : ℚ)))
    (seedG, seedL)
  pairs.map fun p => if p.2 = 0 then 100 else 100 - 100 / (1 + p.1 / p.2)

/-- Modelled from the spec: MACD(12, 26) line with a 9-period EMA signal and
histogram, aligned to the bars where all three are defined. -/
def MACDcalc (values : List ℚ) : List MACDPoint :=
  let fast := EMAcalc 12 values
  let slow := EMAcalc 26 values
  let line := (fast.drop (fast.length - slow.length)).zipWith (· - ·) slow
  let sig := EMAcalc 9 line
  ((line.drop (line.length - sig.length)).zip sig).map fun p =>
    ⟨p.1, p.2, p.1 - p.2⟩

/-- Integer-square-root based rational approximation of the square root,
used only inside the Bollinger-band standard deviation; no theorem depends
on its value. -/
def sqrtQ (q : ℚ) : ℚ :=
  if q ≤ 0 then 0 else
  ((Nat.sqrt (q.num.toNat * q.den * 1000000) : ℕ) : ℚ) / ((q.den : ℚ) * 1000)

/-- Modelled from the spec: Bollinger bands, SMA(20) ± 2 standard deviations
over each window. -/
def BBcalc (period : ℕ) (values : List ℚ) : List BBPoint :=
  if period = 0 then [] else
  (List.range (values.length + 1 - period)).map fun i =>
    let w := (values.drop i).take period
    let m := w.sum / (period : ℚ)
    let variance := (w.map fun x => (x - m) * (x - m)).sum / (period : ℚ)
    let sd := sqrtQ variance
    ⟨m + 2 * sd, m, m - 2 * sd⟩

/-- True ranges: `max(h−l, |h−prevClose|, |l−prevClose|)` for each bar after
the first. -/
def trList (highs lows closes : List ℚ) : List ℚ :=
  (((highs.drop 1).zip (lows.drop 1)).zip closes).map fun p =>
    max (p.1.1 - p.1.2) (max |p.1.1 - p.2| |p.1.2 - p.2|)

/-- Modelled from the spec: Wilder ATR of the true-range series. -/
def ATRcalc (period : ℕ) (highs lows closes : List ℚ) : List ℚ :=
  wilder period (trList highs lows closes)

/-- Modelled from the spec: stochastic %K over `period`-bar windows with a
3-period SMA signal %D, aligned where both are defined. -/
def StochCalc (period : ℕ) (highs lows closes : List ℚ) : List StochPoint :=
  if period = 0 then [] else
  let ks := (List.range (closes.length + 1 - period)).map fun i =>
    let hh := listMaxD ((highs.drop i).take period) 0
    let ll := listMinD ((lows.drop i).take period) 0
    let c := lastD ((closes.drop i).take period) 0
    100 * (c - ll) / (hh - ll)
  let ds := SMAcalc 3 ks
  ((ks.drop (ks.length - ds.length)).zip ds).map fun p => ⟨p.1, p.2⟩

/-- Modelled from the spec: Wilder ADX with +DI/−DI. -/
def ADXcalc (period : ℕ) (highs lows closes : List ℚ) : List ADXPoint :=
  let ups := (highs.drop 1).zipWith (· - ·) highs
  let downs := lows.zipWith (· - ·) (lows.drop 1)
  let pDM := ups.zipWith (fun u d => if u > d ∧ u > 0 then u else 0) downs
  let mDM := ups.zipWith (fun u d => if d > u ∧ d > 0 then d else 0) downs
  let str := wilder period (trList highs lows closes)
  let spd := wilder period pDM
  let smd := wilder period mDM
  let pdis := spd.zipWith (fun p t => 100 * p / t) str
  let mdis := smd.zipWith (fun m t => 100 * m / t) str
  let dxs := pdis.zipWith (fun p m => 100 * |p - m| / (p + m)) mdis
  let adxs := wilder period dxs
  ((pdis.drop (pdis.length - adxs.length)).zip
    ((mdis.drop (mdis.length - adxs.length)).zip adxs)).map fun t =>
      ⟨t.2.2, t.1, t.2.1⟩

/-- Modelled from the spec: CCI over 20-bar windows of the typical price. -/
def CCIcalc (period : ℕ) (highs lows closes : List ℚ) : List ℚ :=
  if period = 0 then [] else
  let tps := ((highs.zip lows).zip closes).map fun p =>
    (p.1.1 + p.1.2 + p.2) / 3
  (List.range (tps.length + 1 - period)).map fun i =>
    let w := (tps.drop i).take period
    let m := w.sum / (period : ℚ)
    let md := (w.map fun x => |x - m|).sum / (period : ℚ)
    (lastD w 0 - m) / ((3/200) * md)

/-! ### SignalEngine.calcIndicators (SignalEngine.js lines 40-76)

The JS `try/catch` returns `null` only when the library throws; the modelled
library is total on numeric input, so the snapshot is always built (the
`if (!ind) return null` branch of `analyze` is unreachable). -/

def calcIndicators (closes highs lows opens : List ℚ) : Indicators :=
  let _ := opens
  let rsiL := RSIcalc 14 closes
  let macdL := MACDcalc closes
  let ema9L := EMAcalc 9 closes
  let ema21L := EMAcalc 21 closes
  let ema50L := EMAcalc 50 closes
  let sma200L := SMAcalc (min 200 (closes.length - 1)) closes
  let bbL := BBcalc 20 closes
  let atrL := ATRcalc 14 highs lows closes
  let atr7L := ATRcalc 7 highs lows closes
  let stochL := StochCalc 14 highs lows closes
  let adxL := ADXcalc 14 highs lows closes
  let cciL := CCIcalc 20 highs lows closes
  { price := lastD closes 0
    prevPrice := ((secondLast? closes).getD 0 : ℚ)
    rsi := lastD rsiL 0
    rsiPrev := (secondLast? rsiL).getD 0
    rsiHistory := takeRight rsiL 6
    macd := macdL.getLast?
    macdPrev := secondLast? macdL
    macdPrev2 := if macdL.length > 2 then macdL.get? (macdL.length - 3) else none
    ema9 := lastD ema9L 0
    ema21 := lastD ema21L 0
    ema50 := lastD ema50L 0
    sma200 := if sma200L.length > 0 then sma200L.getLast? else none
    ema9Prev := (secondLast? ema9L).getD 0
    ema21Prev := (secondLast? ema21L).getD 0
    bb := bbL.getLast?
    atr := lastD atrL 0
    atr7 := if atr7L.length > 0 then lastD atr7L 0 else lastD atrL 0
    atrPrev := if atrL.length > 5 then (atrL.get? (atrL.length - 5)).getD 0
               else lastD atrL 0
    stoch := stochL.getLast?
    stochPrev := if stochL.length > 1 then secondLast? stochL else none
    stochHistory := takeRight stochL 6
    adx := adxL.getLast?
    cci := cciL.getLast?
    cciPrev := if cciL.length > 1 then secondLast? cciL else none
    recentHighs := takeRight highs 30
    recentLows := takeRight lows 30
    recentCloses := takeRight closes 30 }

/-! ### SignalEngine.findSR (SignalEngine.js lines 200-213) -/

def findSR (closes highs lows : List ℚ) : SR :=
  let lb := min 50 highs.length
  let rh := takeRight highs lb
  let rl := takeRight lows lb
  let price := lastD closes 0
  let sH := (List.range lb).filterMap fun i =>
    if 2 ≤ i ∧ i + 2 < lb ∧
       rh.getD i 0 > rh.getD (i-1) 0 ∧ rh.getD i 0 > rh.getD (i-2) 0 ∧
       rh.getD i 0 > rh.getD (i+1) 0 ∧ rh.getD i 0 > rh.getD (i+2) 0
    then some (rh.getD i 0) else none
  let sL := (List.range lb).filterMap fun i =>
    if 2 ≤ i ∧ i + 2 < lb ∧
       rl.getD i 0 < rl.getD (i-1) 0 ∧ rl.getD i 0 < rl.getD (i-2) 0 ∧
       rl.getD i 0 < rl.getD (i+1) 0 ∧ rl.getD i 0 < rl.getD (i+2) 0
    then some (rl.getD i 0) else none
  let resCands := List.insertionSort (· ≤ ·) (sH.filter fun v => decide (v > price))
  let resistance := match resCands.head? with
    | some v => if v = 0 then listMaxD rh 0 else v
    | none => listMaxD rh 0
  let supCands := List.insertionSort (fun a b => b ≤ a)
    (sL.filter fun v => decide (v < price))
  let support := match supCands.head? with
    | some v => if v = 0 then listMinD rl 0 else v
    | none => listMinD rl 0
  ⟨support, resistance⟩

/-! ### SignalEngine.getContext (SignalEngine.js lines 159-198)

The JS line 183 reads the wall clock: `const h = new Date().getUTCHours()`.
That read is modelled as the explicit parameter `nowUtcHour`; nothing else in
the function depends on it, and no bar timestamp is consulted. -/

def getContext (ind : Indicators) (closes highs lows : List ℚ)
    (nowUtcHour : ℕ) : Context :=
  let ts : ℕ :=
    (if ind.price > ind.ema50 then 1 else 0) +
    (if (match ind.sma200 with
         | some v => decide (v ≠ 0 ∧ ind.price > v)
         | none => false) then 1 else 0) +
    (if ind.ema9 > ind.ema21 then 1 else 0) +
    (if ind.ema21 > ind.ema50 then 1 else 0)
  let adxValue : ℚ := match ind.adx with
    | some a => a.adx
    | none => 0
  let trend :=
    if adxValue ≥ 20 ∧ ts ≥ 3 then Trend.BULLISH
    else if adxValue ≥ 20 ∧ ts ≤ 1 then Trend.BEARISH
    else Trend.NEUTRAL
  let trendStrength := if trend = Trend.NEUTRAL then 0 else adxValue
  let v1 :=
    if ind.atr7 ≠ 0 ∧ ind.atrPrev ≠ 0 then
      (if ind.atr7 / ind.atrPrev > 3/2 then Volatility.HIGH
       else if ind.atr7 / ind.atrPrev < 7/10 then Volatility.LOW
       else Volatility.NORMAL)
    else Volatility.NORMAL
  let volatility :=
    if (match ind.bb with
        | some b => decide ((b.upper - b.lower) / b.middle < 1/200)
        | none => false) then Volatility.SQUEEZE else v1
  let session :=
    if 12 ≤ nowUtcHour ∧ nowUtcHour < 16 then Session.OVERLAP
    else if 7 ≤ nowUtcHour ∧ nowUtcHour < 16 then Session.LONDON
    else if 12 ≤ nowUtcHour ∧ nowUtcHour < 21 then Session.NEW_YORK
    else if 23 ≤ nowUtcHour ∨ nowUtcHour < 8 then Session.ASIAN
    else Session.OFF_HOURS
  let r1 := if adxValue ≥ 25 then Regime.TRENDING else Regime.RANGING
  let regime :=
    if (gtAll ind.price ((takeRight highs 20).dropLast) ∨
        ltAll ind.price ((takeRight lows 20).dropLast)) ∧ adxValue ≥ 20
    then Regime.BREAKOUT else r1
  { trend := trend, trendStrength := trendStrength, volatility := volatility
    session := session, regime := regime, sr := findSR closes highs lows }

/-! ### SignalEngine.analyzeMomentum (SignalEngine.js lines 87-157) -/

/-- Length of the initial run of candles satisfying `p`. -/
def streakCount (p : Candle → Bool) : List Candle → ℕ
  | [] => 0
  | c :: cs => if p c then streakCount p cs + 1 else 0

def analyzeMomentum (candles : List Candle) (ind : Indicators) : Momentum :=
  let recent := takeRight candles 8
  let rev := recent.reverse
  let bullish := streakCount (fun c => decide (c.close > c.open_)) rev
  let bearish :=
    if bullish = 0 then streakCount (fun c => decide (¬ c.close > c.open_)) rev
    else 0
  let pairs := (recent.drop 1).zip (recent.drop 2)
  let hh := pairs.countP fun p => decide (p.2.high > p.1.high)
  let lh := pairs.countP fun p => decide (p.2.high < p.1.high)
  let hl := pairs.countP fun p => decide (p.2.low > p.1.low)
  let ll := pairs.countP fun p => decide (p.2.low < p.1.low)
  let priceStructure :=
    if hh ≥ 3 ∧ hl ≥ 3 then PriceStructure.BULLISH_STRUCTURE
    else if lh ≥ 3 ∧ ll ≥ 3 then PriceStructure.BEARISH_STRUCTURE
    else PriceStructure.NONE
  let ms : ℚ × Bool :=
    if recent.length ≥ 2 ∧ ind.atr ≠ 0 then
      let m := |((recent.getLast?).getD cdef).close -
                ((recent.head?).getD cdef).open_| / ind.atr
      (m, decide (m > 3))
    else (0, false)
  let stochPersistence :=
    if ind.stochHistory.length ≥ 4 then
      let lastFour := takeRight ind.stochHistory 4
      if lastFour.all fun s => decide (s.k > 75) then
        StochPersist.OVERBOUGHT_PERSISTENT
      else if lastFour.all fun s => decide (s.k < 25) then
        StochPersist.OVERSOLD_PERSISTENT
      else StochPersist.NONE
    else StochPersist.NONE
  let rsiPersistence :=
    if ind.rsiHistory.length ≥ 4 then
      let lastFour := takeRight ind.rsiHistory 4
      if lastFour.all fun r => decide (r > 60) then RsiPersist.HIGH_PERSISTENT
      else if lastFour.all fun r => decide (r < 40) then RsiPersist.LOW_PERSISTENT
      else RsiPersist.NONE
    else RsiPersist.NONE
  { bullishCandles := bullish, bearishCandles := bearish
    higherHighs := hh, higherLows := hl, lowerHighs := lh, lowerLows := ll
    priceStructure := priceStructure, stochPersistence := stochPersistence
    rsiPersistence := rsiPersistence, moveSize := ms.1, isMomentumMove := ms.2 }

/-! ### SRDetector.clusterLevels (SRDetector.js lines 104-157)

Levels are identified by their price (the zone center produced by
`_buildCluster` is the plain average of the member prices; `touchCount`,
`minAge` and `type` are metadata recomputed on every analysis call and are
not part of the level's identity). -/

/-- The running cluster center: the plain average used by `clusterLevels`
(`currentCluster.reduce((s,c) => s + c.price, 0) / currentCluster.length`)
and by `_buildCluster` for the emitted zone price. -/
def mean (l : List ℚ) : ℚ := l.sum / (l.length : ℚ)

/-- The left-to-right sweep of `clusterLevels`: merge the next swing into the
current cluster when it is within `tol` of the running mean, otherwise close
the cluster (emitting its mean) and start a new one. -/
def clusterGo (tol : ℚ) : List ℚ → List ℚ → List ℚ → List ℚ
  | current, acc, [] => acc ++ [mean current]
  | current, acc, x :: xs =>
    if |x - mean current| ≤ tol then clusterGo tol (current ++ [x]) acc xs
    else clusterGo tol [x] (acc ++ [mean current]) xs

/-- SRDetector.clusterLevels: sort the swing prices ascending (the JS
comparator `(a, b) => a.price - b.price`), then sweep with tolerance
`atr * 0.5`. -/
def clusterLevels (swings : List ℚ) (atr : ℚ) : List ℚ :=
  match List.insertionSort (· ≤ ·) swings with
  | [] => []
  | s :: rest => clusterGo (atr * (1/2)) [s] [] rest

/-- Adjacent output levels of the sweep are ordered and separated by more
than the tolerance; this is the invariant that makes re-clustering the
identity. -/
def Gapped (tol : ℚ) (a b : ℚ) : Prop := a ≤ b ∧ a + tol < b

/-! ### SignalEngine.generateSignal (SignalEngine.js lines 251-644)

The function is split into its phases: event collection (lines 258-360),
conflict collection (lines 366-468), direction selection (lines 474-519),
context adjustments with their early HOLD returns (lines 521-579, as an
`Except`), and the SL/TP bracket with the risk:reward gate (lines 581-623).
Where the JS pushes a pair of mutually exclusive branches with `else if`,
both conditions are written out (their exclusivity follows from the
comparisons themselves unless noted). -/

structure EventCol where
  buyStrong : List Msg
  buyWeak : List Msg
  sellStrong : List Msg
  sellWeak : List Msg
  buyState : List Msg
  sellState : List Msg
  emaEvent : Bool
  macdEvent : Bool
  stochEvent : Bool

/-- Shared crossover tests (the `eventSources` flags that are read back:
`ema`, `macd`, `stoch`). -/
def emaBuyX (ind : Indicators) : Bool :=
  decide (ind.ema9 > ind.ema21 ∧ ind.ema9Prev ≤ ind.ema21Prev)

def emaSellX (ind : Indicators) : Bool :=
  decide (ind.ema9 < ind.ema21 ∧ ind.ema9Prev ≥ ind.ema21Prev)

def macdBuyX (ind : Indicators) : Bool :=
  opt2 ind.macd ind.macdPrev fun m mp =>
    decide (m.MACD > m.signal ∧ mp.MACD ≤ mp.signal)

def macdSellX (ind : Indicators) : Bool :=
  opt2 ind.macd ind.macdPrev fun m mp =>
    decide (m.MACD < m.signal ∧ mp.MACD ≥ mp.signal)

def stochBuyX (ind : Indicators) : Bool :=
  opt2 ind.stoch ind.stochPrev fun s sp =>
    decide (s.k < 20 ∧ s.k > s.d ∧ sp.k ≤ sp.d)

def stochSellX (ind : Indicators) : Bool :=
  opt2 ind.stoch ind.stochPrev fun s sp =>
    decide (s.k > 80 ∧ s.k < s.d ∧ sp.k ≥ sp.d)

def emaEventOf (ind : Indicators) : Bool := emaBuyX ind || emaSellX ind

def macdEventOf (ind : Indicators) : Bool := macdBuyX ind || macdSellX ind

def stochEventOf (ind : Indicators) : Bool := stochBuyX ind || stochSellX ind

/-- `ind.adx && ind.adx.adx > 22` (truthy object, then the threshold). -/
def adxAbove22 (ind : Indicators) : Bool :=
  match ind.adx with
  | some a => decide (a.adx > 22)
  | none => false

/-- Strong buy events (lines 261-294), in push order. -/
def buyStrongEvents (ind : Indicators) (momentum : Momentum) : List Msg :=
  (if emaBuyX ind then [Msg.emaBullCross] else []) ++
  (if macdBuyX ind then [Msg.macdBullCross] else []) ++
  (if stochBuyX ind &&
      !(momentum.stochPersistence = StochPersist.OVERSOLD_PERSISTENT)
   then [Msg.stochBullCrossStrong] else [])

/-- Strong sell events (lines 261-294), in push order. -/
def sellStrongEvents (ind : Indicators) (momentum : Momentum) : List Msg :=
  (if emaSellX ind then [Msg.emaBearCross] else []) ++
  (if macdSellX ind then [Msg.macdBearCross] else []) ++
  (if stochSellX ind &&
      !(momentum.stochPersistence = StochPersist.OVERBOUGHT_PERSISTENT)
   then [Msg.stochBearCrossStrong] else [])

/-- Weak buy events (lines 278-314): the downgraded stochastic crossover,
CCI crossing above -100, breakout beyond the recent 30-bar high with
ADX > 22, RSI exiting oversold. -/
def buyWeakEvents (ind : Indicators) (momentum : Momentum) : List Msg :=
  let cciBuy := opt2 ind.cci ind.cciPrev fun c cp => decide (c > -100 ∧ cp ≤ -100)
  let brkBuy := gtAll ind.price (ind.recentHighs.dropLast) && adxAbove22 ind
  let rsiBuyW := decide (ind.rsi ≠ 0 ∧ ind.rsiPrev ≠ 0) &&
    decide (ind.rsi > 30 ∧ ind.rsiPrev ≤ 30)
  (if stochBuyX ind &&
      (momentum.stochPersistence = StochPersist.OVERSOLD_PERSISTENT)
   then [Msg.stochBullCrossWeak] else []) ++
  (if cciBuy then [Msg.cciUp] else []) ++
  (if brkBuy then [Msg.breakoutHigh] else []) ++
  (if rsiBuyW then [Msg.rsiExitOversold] else [])

/-- Weak sell events (lines 278-314); the breakdown branch is the `else if`
of the breakout branch. -/
def sellWeakEvents (ind : Indicators) (momentum : Momentum) : List Msg :=
  let cciSell := opt2 ind.cci ind.cciPrev fun c cp => decide (c < 100 ∧ cp ≥ 100)
  let brkBuy := gtAll ind.price (ind.recentHighs.dropLast) && adxAbove22 ind
  let brkSell := !brkBuy &&
    (ltAll ind.price (ind.recentLows.dropLast) && adxAbove22 ind)
  let rsiSellW := decide (ind.rsi ≠ 0 ∧ ind.rsiPrev ≠ 0) &&
    decide (ind.rsi < 70 ∧ ind.rsiPrev ≥ 70)
  (if stochSellX ind &&
      (momentum.stochPersistence = StochPersist.OVERBOUGHT_PERSISTENT)
   then [Msg.stochBearCrossWeak] else []) ++
  (if cciSell then [Msg.cciDown] else []) ++
  (if brkSell then [Msg.breakdownLow] else []) ++
  (if rsiSellW then [Msg.rsiExitOverbought] else [])

/-- Buy state signals (lines 316-360), in push order; blocks suppressed by a
fired event source test the corresponding flag. -/
def buyStateList (ind : Indicators) : List Msg :=
  let alignBuy := !emaEventOf ind &&
    decide (ind.ema9 > ind.ema21 ∧ ind.ema21 > ind.ema50)
  let priceAbove := decide (ind.price > ind.ema21 ∧ ind.price > ind.ema50)
  let macdStBuy := !macdEventOf ind && (ind.macd.elim false fun m =>
    decide (m.MACD > m.signal ∧ m.histogram > 0))
  let macdMomBuy := !macdEventOf ind &&
    (match ind.macd, ind.macdPrev, ind.macdPrev2 with
     | some m, some mp, some mp2 =>
       decide (m.histogram > mp.histogram ∧ mp.histogram > mp2.histogram ∧
               m.histogram > 0)
     | _, _, _ => false)
  let rsiRise := decide (ind.rsiPrev ≠ 0) &&
    decide (ind.rsi > ind.rsiPrev ∧ ind.rsi < 40)
  let stochStBuy := !stochEventOf ind && (ind.stoch.elim false fun s =>
    decide (s.k < 25 ∧ s.d < 25))
  let bbStBuy := ind.bb.elim false fun b =>
    decide ((ind.price - b.lower) / (b.upper - b.lower) < 1/10)
  let adxStBuy := ind.adx.elim false fun a =>
    decide (a.adx > 22 ∧ a.pdi > a.mdi)
  (if alignBuy then [Msg.emaAlignBull] else []) ++
  (if priceAbove then [Msg.priceAboveEmas] else []) ++
  (if macdStBuy then [Msg.macdBullState] else []) ++
  (if macdMomBuy then [Msg.macdMomentumUp] else []) ++
  (if ind.rsi < 35 then [Msg.rsiOversoldState] else []) ++
  (if rsiRise then [Msg.rsiRisingLow] else []) ++
  (if stochStBuy then [Msg.stochOversoldState] else []) ++
  (if bbStBuy then [Msg.bbLowerState] else []) ++
  (if adxStBuy then [Msg.adxBullState] else [])

/-- Sell state signals (lines 316-360), in push order. -/
def sellStateList (ind : Indicators) : List Msg :=
  let alignSell := !emaEventOf ind &&
    decide (ind.ema9 < ind.ema21 ∧ ind.ema21 < ind.ema50)
  let priceBelow := decide (ind.price < ind.ema21 ∧ ind.price < ind.ema50)
  let macdStSell := !macdEventOf ind && (ind.macd.elim false fun m =>
    decide (m.MACD < m.signal ∧ m.histogram < 0))
  let macdMomSell := !macdEventOf ind &&
    (match ind.macd, ind.macdPrev, ind.macdPrev2 with
     | some m, some mp, some mp2 =>
       decide (m.histogram < mp.histogram ∧ mp.histogram < mp2.histogram ∧
               m.histogram < 0)
     | _, _, _ => false)
  let rsiFall := decide (ind.rsiPrev ≠ 0) &&
    decide (ind.rsi < ind.rsiPrev ∧ ind.rsi > 60)
  let stochStSell := !stochEventOf ind && (ind.stoch.elim false fun s =>
    decide (s.k > 75 ∧ s.d > 75))
  let bbStSell := ind.bb.elim false fun b =>
    decide ((ind.price - b.lower) / (b.upper - b.lower) > 9/10)
  let adxStSell := ind.adx.elim false fun a =>
    decide (a.adx > 22 ∧ a.pdi ≤ a.mdi)
  (if alignSell then [Msg.emaAlignBear] else []) ++
  (if priceBelow then [Msg.priceBelowEmas] else []) ++
  (if macdStSell then [Msg.macdBearState] else []) ++
  (if macdMomSell then [Msg.macdMomentumDown] else []) ++
  (if ind.rsi > 65 then [Msg.rsiOverboughtState] else []) ++
  (if rsiFall then [Msg.rsiFallingHigh] else []) ++
  (if stochStSell then [Msg.stochOverboughtState] else []) ++
  (if bbStSell then [Msg.bbUpperState] else []) ++
  (if adxStSell then [Msg.adxBearState] else [])

def collectEvents (ind : Indicators) (momentum : Momentum) : EventCol :=
  { buyStrong := buyStrongEvents ind momentum
    buyWeak := buyWeakEvents ind momentum
    sellStrong := sellStrongEvents ind momentum
    sellWeak := sellWeakEvents ind momentum
    buyState := buyStateList ind
    sellState := sellStateList ind
    emaEvent := emaEventOf ind
    macdEvent := macdEventOf ind
    stochEvent := stochEventOf ind }

/-- `ind.atr || currentPrice * 0.01` (SignalEngine.js line 394). -/
def atrValueOf (ind : Indicators) (currentPrice : ℚ) : ℚ :=
  if ind.atr = 0 then currentPrice * (1/100) else ind.atr

/-- Conflict collection (SignalEngine.js lines 366-468), in source order. -/
def collectConflicts (ind : Indicators) (ctx : Context) (momentum : Momentum)
    (currentPrice atrValue : ℚ) (macdEvent : Bool) : List Block :=
  let adxValue : ℚ := match ind.adx with
    | some a => a.adx
    | none => 0
  let movingUp := (match (if ind.recentCloses.length < 9 then none
                          else ind.recentCloses.get? (ind.recentCloses.length - 9)) with
                   | some v => decide (ind.price > v)
                   | none => false) || decide (ind.price > ind.ema9)
  let movingDown := (match (if ind.recentCloses.length < 9 then none
                            else ind.recentCloses.get? (ind.recentCloses.length - 9)) with
                     | some v => decide (ind.price < v)
                     | none => false) || decide (ind.price < ind.ema9)
  (if ind.stoch.elim false fun s => decide (s.k < 25) then [Block.SELL] else []) ++
  (if ind.stoch.elim false fun s => decide (s.k > 75) then [Block.BUY] else []) ++
  (if ind.rsi < 30 then [Block.SELL] else []) ++
  (if ind.rsi > 70 then [Block.BUY] else []) ++
  (if ind.macd.isSome && !macdEvent &&
      ind.macd.elim false (fun m => decide (m.histogram > 0))
   then [Block.SELL] else []) ++
  (if ind.macd.isSome && !macdEvent &&
      ind.macd.elim false (fun m => decide (m.histogram < 0))
   then [Block.BUY] else []) ++
  (if decide (ind.rsi ≥ 40 ∧ ind.rsi ≤ 60) &&
      ind.stoch.elim false (fun s => decide (s.k ≥ 35 ∧ s.k ≤ 65))
   then [Block.BOTH] else []) ++
  (if ind.bb.elim false fun b =>
      decide ((ind.price - b.lower) / (b.upper - b.lower) < 1/20)
   then [Block.SELL] else []) ++
  (if ind.bb.elim false fun b =>
      decide ((ind.price - b.lower) / (b.upper - b.lower) > 19/20)
   then [Block.BUY] else []) ++
  (if ctx.sr.resistance > 0 ∧ 0 ≤ ctx.sr.resistance - currentPrice ∧
      ctx.sr.resistance - currentPrice < atrValue * 1
   then [Block.BUY] else []) ++
  (if ctx.sr.support > 0 ∧ 0 ≤ currentPrice - ctx.sr.support ∧
      currentPrice - ctx.sr.support < atrValue * 1
   then [Block.SELL] else []) ++
  (if ctx.regime = Regime.RANGING ∧ adxValue < 20 ∧
      ¬(ind.rsi < 30 ∨ ind.rsi > 70) ∧
      ¬(ind.stoch.elim false fun s => decide (s.k < 20 ∨ s.k > 80)) = true
   then [Block.BOTH] else []) ++
  (if momentum.stochPersistence = StochPersist.OVERBOUGHT_PERSISTENT
   then [Block.SELL] else []) ++
  (if momentum.stochPersistence = StochPersist.OVERSOLD_PERSISTENT
   then [Block.BUY] else []) ++
  (if momentum.priceStructure = PriceStructure.BULLISH_STRUCTURE
   then [Block.SELL] else []) ++
  (if momentum.priceStructure = PriceStructure.BEARISH_STRUCTURE
   then [Block.BUY] else []) ++
  (if momentum.bullishCandles ≥ 3 then [Block.SELL] else []) ++
  (if momentum.bearishCandles ≥ 3 then [Block.BUY] else []) ++
  (if momentum.isMomentumMove && movingUp then [Block.SELL] else []) ++
  (if momentum.isMomentumMove && movingDown then [Block.BUY] else [])

/-- The blocked-signal report built when the decision stays HOLD
(SignalEngine.js lines 510-519). -/
def reportWarnings (totalBuyEvents totalSellEvents : ℕ)
    (buyHasValidEvent sellHasValidEvent : Bool)
    (buyConflicts sellConflicts : List Block) : List Msg :=
  if totalBuyEvents > 0 ∧ buyConflicts ≠ [] then
    buyConflicts.map fun _ => Msg.blockedBuyConflict
  else if totalSellEvents > 0 ∧ sellConflicts ≠ [] then
    sellConflicts.map fun _ => Msg.blockedSellConflict
  else if totalBuyEvents > 0 ∧ ¬buyHasValidEvent then [Msg.weakEventOnly]
  else if totalSellEvents > 0 ∧ ¬sellHasValidEvent then [Msg.weakEventOnly]
  else []

/-- `holdResult` (SignalEngine.js lines 625-644); the indicator digest of the
JS record is formatting only and is omitted. -/
def holdResult (symbol : String) (currentPrice : ℚ) (ctx : Context)
    (warnings : List Msg) : Signal :=
  { symbol := symbol, action := Action.HOLD, confidence := 0
    price := currentPrice, stopLoss := 0, takeProfit := 0, riskReward := 0
    reasons := [], warnings := warnings, context := ctx
    confluenceCount := 0, eventCount := 0, stateCount := 0 }

/-- The context adjustments of SignalEngine.js lines 521-579, with their
early `holdResult` returns as `Except.error` (carrying the warnings the JS
passes to `holdResult`) and the confidence floor (line 577) as the last
step. -/
def contextAdjust (action : Action) (ctx : Context) (momentum : Momentum)
    (conf0 : ℚ) (reasons0 warnings0 : List Msg) :
    Except (List Msg) (ℚ × List Msg × List Msg) :=
  if action = Action.BUY ∧ ctx.trend = Trend.BEARISH ∧ ctx.trendStrength > 30 then
    Except.error [Msg.blockedStrongBearTrend]
  else if action = Action.SELL ∧ ctx.trend = Trend.BULLISH ∧ ctx.trendStrength > 30 then
    Except.error [Msg.blockedStrongBullTrend]
  else
    let c1 := if action = Action.BUY ∧ ctx.trend = Trend.BEARISH
              then jround (conf0 * (1/2)) else conf0
    let w1 := if action = Action.BUY ∧ ctx.trend = Trend.BEARISH
              then warnings0 ++ [Msg.againstBearTrend] else warnings0
    let c2 := if action = Action.SELL ∧ ctx.trend = Trend.BULLISH
              then jround (c1 * (1/2)) else c1
    let w2 := if action = Action.SELL ∧ ctx.trend = Trend.BULLISH
              then w1 ++ [Msg.againstBullTrend] else w1
    let c3 := if action = Action.BUY ∧ ctx.trend = Trend.BULLISH ∧
                 ctx.trendStrength ≥ 20
              then min (jround (c2 * (23/20))) 90 else c2
    let r3 := if action = Action.BUY ∧ ctx.trend = Trend.BULLISH ∧
                 ctx.trendStrength ≥ 20
              then reasons0 ++ [Msg.withBullTrend] else reasons0
    let c4 := if action = Action.SELL ∧ ctx.trend = Trend.BEARISH ∧
                 ctx.trendStrength ≥ 20
              then min (jround (c3 * (23/20))) 90 else c3
    let r4 := if action = Action.SELL ∧ ctx.trend = Trend.BEARISH ∧
                 ctx.trendStrength ≥ 20
              then r3 ++ [Msg.withBearTrend] else r3
    let c5 := if action = Action.BUY ∧
                 momentum.priceStructure = PriceStructure.BULLISH_STRUCTURE
              then min (jround (c4 * (11/10))) 90 else c4
    let r5 := if action = Action.BUY ∧
                 momentum.priceStructure = PriceStructure.BULLISH_STRUCTURE
              then r4 ++ [Msg.bullStructureBoost] else r4
    let c6 := if action = Action.SELL ∧
                 momentum.priceStructure = PriceStructure.BEARISH_STRUCTURE
              then min (jround (c5 * (11/10))) 90 else c5
    let r6 := if action = Action.SELL ∧
                 momentum.priceStructure = PriceStructure.BEARISH_STRUCTURE
              then r5 ++ [Msg.bearStructureBoost] else r5
    let c7 := match ctx.session with
      | Session.OVERLAP => min (jround (c6 * (11/10))) 90
      | Session.LONDON => min (jround (c6 * (21/20))) 90
      | Session.NEW_YORK => min (jround (c6 * (21/20))) 90
      | Session.ASIAN => jround (c6 * (17/20))
      | Session.OFF_HOURS => c6
    let r7 := if ctx.session = Session.OVERLAP then r6 ++ [Msg.overlapSession] else r6
    let w7 := if ctx.session = Session.ASIAN then w2 ++ [Msg.asianSession] else w2
    let c8 := if ctx.volatility = Volatility.HIGH then jround (c7 * (9/10)) else c7
    let w8 := if ctx.volatility = Volatility.HIGH then w7 ++ [Msg.highVolatility] else w7
    if c8 < 40 then Except.error [Msg.confidenceTooLow]
    else Except.ok (c8, r7, w8)

/-- `ctx.volatility === 'HIGH' ? 2.5 : 2.0` (SignalEngine.js line 582). -/
def slMulOf (ctx : Context) : ℚ :=
  if ctx.volatility = Volatility.HIGH then 5/2 else 2

/-- Base confidence of a non-HOLD decision (lines 494-506):
`min(25 + confluence*8, 85)` plus the strong-event bonus. -/
def baseConfidence (confluenceCount strongCount : ℕ) : ℚ :=
  let confA := min (25 + (confluenceCount : ℚ) * 8) 85
  if strongCount ≥ 2 then min (confA + 10) 90
  else if strongCount ≥ 1 then min (confA + 5) 88 else confA

/-- The stop-loss of the bracket (lines 587 and 592):
`entry ∓ atrValue × slMul`. -/
def bracketSL (ctx : Context) (currentPrice atrValue : ℚ)
    (action : Action) : ℚ :=
  if action = Action.BUY then currentPrice - atrValue * slMulOf ctx
  else currentPrice + atrValue * slMulOf ctx

/-- The take-profit of the bracket (lines 588-595): `Math.max` of the ATR
target and the resistance candidate for BUY, `Math.min` of the ATR target
and the support candidate for SELL. -/
def bracketTP (cfg : Config) (ctx : Context) (currentPrice atrValue : ℚ)
    (action : Action) : ℚ :=
  if action = Action.BUY then
    max (currentPrice + atrValue * slMulOf ctx * cfg.minRR)
      (if ctx.sr.resistance > currentPrice then ctx.sr.resistance
       else currentPrice + atrValue * slMulOf ctx * cfg.minRR)
  else
    min (currentPrice - atrValue * slMulOf ctx * cfg.minRR)
      (if ctx.sr.support < currentPrice then ctx.sr.support
       else currentPrice - atrValue * slMulOf ctx * cfg.minRR)

/-- The realized risk:reward of the bracket, rounded to two decimals
(lines 598-600); 0 when the risk is 0. -/
def bracketRR (cfg : Config) (ctx : Context) (currentPrice atrValue : ℚ)
    (action : Action) : ℚ :=
  let risk := |currentPrice - bracketSL ctx currentPrice atrValue action|
  let reward := |bracketTP cfg ctx currentPrice atrValue action - currentPrice|
  if risk > 0 then round2 (reward / risk) else 0

/-- The tail of `generateSignal` for a non-HOLD decision: base confidence
(lines 494-506), context adjustments, SL/TP bracket and risk:reward gate
(lines 581-604), and the final record (lines 606-623). -/
def emitSignal (cfg : Config) (symbol : String) (ctx : Context)
    (momentum : Momentum) (currentPrice atrValue : ℚ) (action : Action)
    (confluenceCount eventCount stateCount strongCount : ℕ)
    (reasons0 : List Msg) : Signal :=
  match contextAdjust action ctx momentum
      (baseConfidence confluenceCount strongCount) reasons0 [] with
  | Except.error w => holdResult symbol currentPrice ctx w
  | Except.ok (conf, rs, ws) =>
    if bracketRR cfg ctx currentPrice atrValue action < cfg.minRR then
      holdResult symbol currentPrice ctx [Msg.rrTooLow]
    else
      { symbol := symbol, action := action, confidence := conf
        price := currentPrice
        stopLoss := bracketSL ctx currentPrice atrValue action
        takeProfit := bracketTP cfg ctx currentPrice atrValue action
        riskReward := bracketRR cfg ctx currentPrice atrValue action
        reasons := rs, warnings := ws, context := ctx
        confluenceCount := confluenceCount, eventCount := eventCount
        stateCount := stateCount }

def generateSignal (cfg : Config) (symbol : String) (ind : Indicators)
    (ctx : Context) (momentum : Momentum) (currentPrice : ℚ) : Signal :=
  let E := collectEvents ind momentum
  let atrValue := atrValueOf ind currentPrice
  let conflicts := collectConflicts ind ctx momentum currentPrice atrValue E.macdEvent
  let totalBuyEvents := E.buyStrong.length + E.buyWeak.length
  let totalSellEvents := E.sellStrong.length + E.sellWeak.length
  let totalBuy := totalBuyEvents + E.buyState.length
  let totalSell := totalSellEvents + E.sellState.length
  let buyHasValidEvent := decide (E.buyStrong.length ≥ 1 ∨ E.buyWeak.length ≥ 2)
  let sellHasValidEvent := decide (E.sellStrong.length ≥ 1 ∨ E.sellWeak.length ≥ 2)
  let buyConflicts := conflicts.filter fun b => b == Block.BUY || b == Block.BOTH
  let sellConflicts := conflicts.filter fun b => b == Block.SELL || b == Block.BOTH
  if buyHasValidEvent ∧ totalBuy ≥ cfg.minConfluence ∧ totalBuy > totalSell ∧
     buyConflicts = [] then
    emitSignal cfg symbol ctx momentum currentPrice atrValue Action.BUY
      totalBuy totalBuyEvents E.buyState.length E.buyStrong.length
      (E.buyStrong ++ E.buyWeak ++ E.buyState)
  else if sellHasValidEvent ∧ totalSell ≥ cfg.minConfluence ∧
          totalSell > totalBuy ∧ sellConflicts = [] then
    emitSignal cfg symbol ctx momentum currentPrice atrValue Action.SELL
      totalSell totalSellEvents E.sellState.length E.sellStrong.length
      (E.sellStrong ++ E.sellWeak ++ E.sellState)
  else
    { symbol := symbol, action := Action.HOLD, confidence := 0
      price := currentPrice, stopLoss := 0, takeProfit := 0, riskReward := 0
      reasons := []
      warnings := reportWarnings totalBuyEvents totalSellEvents
        buyHasValidEvent sellHasValidEvent buyConflicts sellConflicts
      context := ctx, confluenceCount := 0, eventCount := 0, stateCount := 0 }

/-! ### SignalEngine.analyze (SignalEngine.js lines 23-38)

The candle-store miss (`!candles`) is the caller's concern; the window itself
is the input here.  `calcIndicators` is total (see above), so the
`if (!ind) return null` branch never fires. -/

def analyze (cfg : Config) (symbol : String) (nowUtcHour : ℕ)
    (candles : List Candle) : Option Signal :=
  if candles.length < 60 then none
  else
    let closes := candles.map (·.close)
    let highs := candles.map (·.high)
    let lows := candles.map (·.low)
    let opens := candles.map (·.open_)
    let ind := calcIndicators closes highs lows opens
    let ctx := getContext ind closes highs lows nowUtcHour
    let momentum := analyzeMomentum candles ind
    some (generateSignal cfg symbol ind ctx momentum (lastD closes 0))

/-! ### backtest.simulateOutcome (src/src/backtest.js lines 90-112) -/

structure SimSignal where
  action : Action
  price : ℚ
  stopLoss : ℚ
  takeProfit : ℚ
deriving DecidableEq

inductive OutcomeKind | WIN | LOSS | EXPIRED
deriving DecidableEq

structure Outcome where
  outcome : OutcomeKind
  exitPrice : ℚ
  candlesHeld : ℕ
  pnlR : Option ℚ
deriving DecidableEq

/-- The in-bar take-profit touch test (`high ≥ tp` for BUY, `low ≤ tp`
otherwise). -/
def touchTP (sig : SimSignal) (c : Candle) : Bool :=
  if sig.action = Action.BUY then decide (c.high ≥ sig.takeProfit)
  else decide (c.low ≤ sig.takeProfit)

/-- The in-bar stop-loss touch test (`low ≤ sl` for BUY, `high ≥ sl`
otherwise). -/
def touchSL (sig : SimSignal) (c : Candle) : Bool :=
  if sig.action = Action.BUY then decide (c.low ≤ sig.stopLoss)
  else decide (c.high ≥ sig.stopLoss)

/-- The scanning loop of `simulateOutcome` (backtest.js lines 95-105): for
each bar, the take-profit check runs before the stop-loss check. -/
def scanBars (sig : SimSignal) : List Candle → ℕ → Option Outcome
  | [], _ => none
  | c :: rest, i =>
    if sig.action = Action.BUY then
      if c.high ≥ sig.takeProfit then
        some ⟨OutcomeKind.WIN, sig.takeProfit, i + 1, none⟩
      else if c.low ≤ sig.stopLoss then
        some ⟨OutcomeKind.LOSS, sig.stopLoss, i + 1, none⟩
      else scanBars sig rest (i + 1)
    else
      if c.low ≤ sig.takeProfit then
        some ⟨OutcomeKind.WIN, sig.takeProfit, i + 1, none⟩
      else if c.high ≥ sig.stopLoss then
        some ⟨OutcomeKind.LOSS, sig.stopLoss, i + 1, none⟩
      else scanBars sig rest (i + 1)

/-- backtest.simulateOutcome.  `candles.slice(signalIndex + 1,
signalIndex + 48)` keeps the forward bars at offsets 1..47 — 47 bars. -/
def simulateOutcome (signal : SimSignal) (candles : List Candle)
    (signalIndex : ℕ) : Option Outcome :=
  if signal.action = Action.HOLD then none else
  let futureCandles := jsSlice candles (signalIndex + 1) (signalIndex + 48)
  match scanBars signal futureCandles 0 with
  | some r => some r
  | none =>
    let lastClose := match futureCandles.getLast? with
      | some c => if c.close = 0 then signal.price else c.close
      | none => signal.price
    let risk := |signal.price - signal.stopLoss|
    let pnl := (if signal.action = Action.BUY then lastClose - signal.price
                else signal.price - lastClose) / risk
    some ⟨OutcomeKind.EXPIRED, lastClose, futureCandles.length, some (round2 pnl)⟩

/-- Index of the first forward bar touching either bracket level. -/
def firstHitIndex (sig : SimSignal) : List Candle → Option ℕ
  | [] => none
  | c :: rest =>
    if touchTP sig c || touchSL sig c then some 0
    else (firstHitIndex sig rest).map (· + 1)

/-- The outcome-resolution contract as the claim states it, with the horizon
corrected from 48 to the 47 bars the slice actually yields: scan the window
of up to 47 forward bars; WIN (exit at take-profit) if the first bar touching
either level touches the take-profit, LOSS (exit at stop-loss) if it touches
only the stop-loss, and otherwise EXPIRED at the last scanned close with a
mark-to-market R-multiple.  A plain function of its inputs, hence the same
triple on every run. -/
def resolveOutcomeSpec (sig : SimSignal) (candles : List Candle)
    (signalIndex : ℕ) : Option Outcome :=
  if sig.action = Action.HOLD then none else
  let window := jsSlice candles (signalIndex + 1) (signalIndex + 48)
  match firstHitIndex sig window with
  | some j =>
    if touchTP sig (window.getD j cdef) then
      some ⟨OutcomeKind.WIN, sig.takeProfit, j + 1, none⟩
    else some ⟨OutcomeKind.LOSS, sig.stopLoss, j + 1, none⟩
  | none =>
    let lastClose := match window.getLast? with
      | some c => if c.close = 0 then sig.price else c.close
      | none => sig.price
    let risk := |sig.price - sig.stopLoss|
    let pnl := (if sig.action = Action.BUY then lastClose - sig.price
                else sig.price - lastClose) / risk
    some ⟨OutcomeKind.EXPIRED, lastClose, window.length, some (round2 pnl)⟩

/-! ### Concrete inputs used by the witnesses and counterexamples -/

/-- A snapshot whose only event is an EMA 9/21 bullish crossover, with three
supporting buy states (price above EMAs, RSI rising from low, ADX bullish)
and no conflict. -/
def indW : Indicators :=
  { price := 100, prevPrice := 99, rsi := 38, rsiPrev := 37, rsiHistory := []
    macd := none, macdPrev := none, macdPrev2 := none
    ema9 := 99, ema21 := 98, ema50 := 97, sma200 := some 95
    ema9Prev := 97, ema21Prev := 98
    bb := some ⟨110, 100, 95⟩
    atr := 5, atr7 := 5, atrPrev := 5
    stoch := some ⟨50, 50⟩, stochPrev := some ⟨50, 50⟩, stochHistory := []
    adx := some ⟨28, 30, 10⟩
    cci := none, cciPrev := none
    recentHighs := [101, 102, 103], recentLows := [90, 91, 89]
    recentCloses := [99, 100] }

def ctxW : Context :=
  { trend := Trend.BULLISH, trendStrength := 28, volatility := Volatility.NORMAL
    session := Session.LONDON, regime := Regime.TRENDING, sr := ⟨90, 107⟩ }

def momW : Momentum :=
  { bullishCandles := 0, bearishCandles := 0, higherHighs := 0, higherLows := 0
    lowerHighs := 0, lowerLows := 0, priceStructure := PriceStructure.NONE
    stochPersistence := StochPersist.NONE, rsiPersistence := RsiPersist.NONE
    moveSize := 0, isMomentumMove := false }

/-- The same snapshot with ATR 0.3 — far below the claimed instrument floor
of 2 for XAU/USD. -/
def indLowAtr : Indicators := { indW with atr := 3/10 }

def closesW : List ℚ := [100]

def highsW : List ℚ := [101]

def lowsW : List ℚ := [99]

/-- A 100-bar rising window. -/
def candles100 : List Candle :=
  (List.range 100).map fun i =>
    ⟨((100 + i : ℕ) : ℚ), ((101 + i : ℕ) : ℚ), ((99 + i : ℕ) : ℚ),
     ((100 + i : ℕ) : ℚ)⟩

/-- A forward bar that touches neither level of `sigC3`. -/
def quietBar : Candle := ⟨100, 105, 95, 101⟩

/-- A forward bar whose high touches the take-profit of `sigC3`. -/
def tpBar : Candle := ⟨100, 120, 95, 101⟩

def sigC3 : SimSignal := ⟨Action.BUY, 100, 90, 110⟩

/-- Signal bar at index 0, 47 quiet forward bars, and a take-profit touch at
forward bar 48. -/
def barsC3 : List Candle := quietBar :: (List.replicate 47 quietBar ++ [tpBar])

def sigC10 : SimSignal := ⟨Action.BUY, 100, 90, 110⟩

/-- A forward bar that touches the take-profit and the stop-loss at once. -/
def bothBar : Candle := ⟨100, 120, 80, 101⟩

def barsC10 : List Candle := [quietBar, bothBar]

/-! ### Claim theorems -/

/-- C2: the claim says the session classification is derived from the
hour-of-day of the current bar's timestamp, so that two runs of the analysis
over the same bars are identical.  In the code, `getContext` derives the
session from `new Date().getUTCHours()` — the wall clock, modelled as the
explicit `nowUtcHour` argument — and reads no bar timestamp at all: the same
window analysed at wall-clock hour 13 is classified OVERLAP but at hour 22
OFF_HOURS. -/
theorem c2_theorem :
    (getContext indW closesW highsW lowsW 13).session = Session.OVERLAP ∧
    (getContext indW closesW highsW lowsW 22).session = Session.OFF_HOURS ∧
    Session.OVERLAP ≠ Session.OFF_HOURS := by
  refine ⟨rfl, rfl, by decide⟩

/-- C6 (amended): the analysis tick is soft-skipped — `analyze` returns no
result and raises no error — exactly when the window holds fewer than 60
bars (not 110; the 110-bar warm-up is enforced by the backtest driver, which
skips the first 110 bars before calling `analyze`). -/
theorem c6_theorem (cfg : Config) (sym : String) (h : ℕ)
    (candles : List Candle) :
    analyze cfg sym h candles = none ↔ candles.length < 60 := by
  unfold analyze
  split
  · simp [*]
  · simp [*]

/-- C6 counterexample: a window of 100 bars — fewer than the 110 the claim
requires — still produces a snapshot and an analysis result. -/
theorem c6_counterexample :
    candles100.length = 100 ∧ 100 < 110 ∧
    (analyze defaultConfig "XAU/USD" 13 candles100).isSome = true := by
  have hlen : candles100.length = 100 := by simp [candles100]
  refine ⟨hlen, by norm_num, ?_⟩
  unfold analyze
  rw [if_neg (by rw [hlen]; norm_num)]
  rfl

/-- C7: the claim (and the repository's own fix-slguard.cjs patch script)
requires ATR = 0.3 on an instrument with floor 2 to force HOLD.  The engine
in src has no minimum-ATR guard — the patch's anchor text does not occur in
`generateSignal` — and this otherwise-qualifying snapshot with ATR = 0.3 is
emitted as a BUY. -/
theorem c7_theorem :
    indLowAtr.atr = 3/10 ∧ indLowAtr.atr < 2 ∧
    (generateSignal defaultConfig "XAU/USD" indLowAtr ctxW momW 100).action =
      Action.BUY := by
  decide

/-- C4 counterexample: a qualifying BUY in NORMAL volatility with ATR = 5
gets `stopLoss = entry − 2.0×5 = 90`, not the claimed `entry − 2.5×5`. -/
theorem c4_counterexample :
    (generateSignal defaultConfig "XAU/USD" indW ctxW momW 100).action =
      Action.BUY ∧
    ctxW.volatility = Volatility.NORMAL ∧ indW.atr = 5 ∧
    (generateSignal defaultConfig "XAU/USD" indW ctxW momW 100).stopLoss = 90 ∧
    (90 : ℚ) ≠ 100 - (5/2) * 5 := by
  decide

/-- C5 counterexample: for this qualifying BUY the resistance level 107 is
strictly nearer to the entry 100 than the ATR target 115, yet the emitted
take-profit is 115 — the farther candidate — and the risk:reward gate passes
at exactly `minRR`. -/
theorem c5_counterexample :
    (generateSignal defaultConfig "XAU/USD" indW ctxW momW 100).action =
      Action.BUY ∧
    ctxW.sr.resistance = 107 ∧
    |(107 : ℚ) - 100| <
      |(100 + atrValueOf indW 100 * slMulOf ctxW * defaultConfig.minRR) - 100| ∧
    (generateSignal defaultConfig "XAU/USD" indW ctxW momW 100).takeProfit ≠ 107 ∧
    (generateSignal defaultConfig "XAU/USD" indW ctxW momW 100).takeProfit = 115 := by
  decide

/-- C3 counterexample: `simulateOutcome` never sees the 48th forward bar.
Here the take-profit of a BUY bracket is touched by the high of forward bar
48 and by nothing earlier, and the claim says the scan of up to 48 forward
bars returns WIN; the code's `slice(signalIndex+1, signalIndex+48)` stops at
forward bar 47 and returns EXPIRED at its close. -/
theorem c3_counterexample :
    (barsC3.getD 48 cdef).high ≥ sigC3.takeProfit ∧
    (∀ k, 1 ≤ k → k ≤ 47 → barsC3.getD k cdef = quietBar) ∧
    simulateOutcome sigC3 barsC3 0 =
      some ⟨OutcomeKind.EXPIRED, 101, 47, some (1/10)⟩ := by
  refine ⟨by decide, ?_, by decide⟩
  intro k h1 h47
  interval_cases k <;> decide

/-! ### Idempotence of clusterLevels (C8) -/

theorem mean_singleton (c : ℚ) : mean [c] = c := by
  simp [mean]

theorem length_posQ {l : List ℚ} (h : l ≠ []) : 0 < (l.length : ℚ) := by
  exact_mod_cast List.length_pos.mpr h

theorem mean_le_of_forall_le {l : List ℚ} {x : ℚ} (hne : l ≠ [])
    (h : ∀ y ∈ l, y ≤ x) : mean l ≤ x := by
  have hn := length_posQ hne
  rw [mean, div_le_iff₀ hn]
  calc l.sum ≤ l.length • x := List.sum_le_card_nsmul l x h
    _ = x * l.length := by rw [nsmul_eq_mul]; ring

theorem mean_append_le {l : List ℚ} {x : ℚ} (hne : l ≠ [])
    (h : mean l ≤ x) : mean l ≤ mean (l ++ [x]) := by
  have hn := length_posQ hne
  have hs : l.sum ≤ x * l.length := by rwa [mean, div_le_iff₀ hn] at h
  rw [mean, mean, List.sum_append, List.length_append]
  simp only [List.sum_cons, List.sum_nil, List.length_cons, List.length_nil]
  push_cast
  rw [div_le_div_iff₀ hn (by positivity)]
  nlinarith [hs]

theorem clusterGo_chain (tol : ℚ) :
    ∀ (l current acc : List ℚ), current ≠ [] →
      List.Sorted (· ≤ ·) (current ++ l) →
      List.Chain' (Gapped tol) acc →
      (∀ a ∈ acc.getLast?, Gapped tol a (mean current)) →
      List.Chain' (Gapped tol) (clusterGo tol current acc l) ∧
        clusterGo tol current acc l ≠ [] := by
  intro l
  induction l with
  | nil =>
    intro current acc _hne _hsorted hacc hlast
    simp only [clusterGo]
    refine ⟨List.chain'_append.mpr ⟨hacc, List.chain'_singleton _, ?_⟩, by simp⟩
    intro a ha b hb
    simp only [List.head?_cons, Option.mem_def, Option.some.injEq] at hb
    subst hb
    exact hlast a ha
  | cons x xs ih =>
    intro current acc hne hsorted hacc hlast
    have hcx : ∀ y ∈ current, y ≤ x := by
      have hp := List.pairwise_append.mp hsorted
      intro y hy
      exact hp.2.2 y hy x (List.mem_cons_self x xs)
    have hmx : mean current ≤ x := mean_le_of_forall_le hne hcx
    by_cases hm : |x - mean current| ≤ tol
    · simp only [clusterGo]
      rw [if_pos hm]
      refine ih (current ++ [x]) acc (by simp) ?_ hacc ?_
      · rw [List.append_assoc, List.singleton_append]
        exact hsorted
      · intro a ha
        have h1 := hlast a ha
        have h2 := mean_append_le hne hmx
        exact ⟨h1.1.trans h2, lt_of_lt_of_le h1.2 h2⟩
    · simp only [clusterGo]
      rw [if_neg hm]
      refine ih [x] (acc ++ [mean current]) (by simp) ?_ ?_ ?_
      · rw [List.singleton_append]
        exact (List.pairwise_append.mp hsorted).2.1
      · refine List.chain'_append.mpr ⟨hacc, List.chain'_singleton _, ?_⟩
        intro a ha b hb
        simp only [List.head?_cons, Option.mem_def, Option.some.injEq] at hb
        subst hb
        exact hlast a ha
      · intro a ha
        rw [List.getLast?_concat] at ha
        simp only [Option.mem_def, Option.some.injEq] at ha
        subst ha
        rw [mean_singleton]
        have habs : tol < |x - mean current| := not_le.mp hm
        rw [abs_of_nonneg (by linarith : (0:ℚ) ≤ x - mean current)] at habs
        exact ⟨hmx, by linarith⟩

theorem clusterGo_fixed (tol : ℚ) :
    ∀ (l : List ℚ) (c : ℚ) (acc : List ℚ),
      List.Chain' (Gapped tol) (c :: l) →
      clusterGo tol [c] acc l = acc ++ c :: l := by
  intro l
  induction l with
  | nil =>
    intro c acc _h
    simp [clusterGo, mean_singleton]
  | cons x xs ih =>
    intro c acc hch
    have h1 : Gapped tol c x := (List.chain'_cons.mp hch).1
    have h2 : List.Chain' (Gapped tol) (x :: xs) := (List.chain'_cons.mp hch).2
    have hcond : ¬ |x - mean [c]| ≤ tol := by
      rw [mean_singleton]
      rw [abs_of_nonneg (by linarith [h1.1] : (0:ℚ) ≤ x - c)]
      have := h1.2
      linarith
    simp only [clusterGo]
    rw [if_neg hcond, mean_singleton, ih x (acc ++ [c]) h2]
    simp

theorem chain_gapped_sorted {tol : ℚ} {l : List ℚ}
    (h : List.Chain' (Gapped tol) l) : List.Sorted (· ≤ ·) l := by
  have h2 : List.Chain' (· ≤ ·) l := List.Chain'.imp (fun a b hab => hab.1) h
  exact List.chain'_iff_pairwise.mp h2

/-- C8: applying `clusterLevels` to its own output (with the same ATR
tolerance) returns the same list of levels: after one pass, consecutive zone
centers are separated by more than the tolerance, so every center becomes a
singleton cluster whose mean is itself. -/
theorem c8_theorem (swings : List ℚ) (atr : ℚ) :
    clusterLevels (clusterLevels swings atr) atr = clusterLevels swings atr := by
  cases hs : List.insertionSort (· ≤ ·) swings with
  | nil =>
    have h1 : clusterLevels swings atr = [] := by
      unfold clusterLevels
      rw [hs]
    rw [h1]
    rfl
  | cons s rest =>
    have hsorted : List.Sorted (· ≤ ·) (s :: rest) := by
      rw [← hs]
      exact List.sorted_insertionSort _ swings
    have hinner : clusterLevels swings atr = clusterGo (atr * (1/2)) [s] [] rest := by
      unfold clusterLevels
      rw [hs]
    obtain ⟨hchain, hne⟩ := clusterGo_chain (atr * (1/2)) rest [s] []
      (by simp) (by simpa using hsorted) List.chain'_nil
      (by intro a ha; simp at ha)
    rw [hinner]
    unfold clusterLevels
    rw [List.Sorted.insertionSort_eq (chain_gapped_sorted hchain)]
    cases hout : clusterGo (atr * (1/2)) [s] [] rest with
    | nil => exact absurd hout hne
    | cons c l =>
      have hch2 : List.Chain' (Gapped (atr * (1/2))) (c :: l) := hout ▸ hchain
      simpa using clusterGo_fixed (atr * (1/2)) l c [] hch2

/-! ### The outcome scan (C3, C10) -/

theorem scanBars_eq_firstHit (sig : SimSignal) :
    ∀ (l : List Candle) (i : ℕ),
      scanBars sig l i = (firstHitIndex sig l).map (fun j =>
        if touchTP sig (l.getD j cdef) then
          ⟨OutcomeKind.WIN, sig.takeProfit, i + j + 1, none⟩
        else ⟨OutcomeKind.LOSS, sig.stopLoss, i + j + 1, none⟩) := by
  intro l
  induction l with
  | nil => intro i; simp [scanBars, firstHitIndex]
  | cons c rest ih =>
    intro i
    by_cases hb : sig.action = Action.BUY
    · by_cases h1 : c.high ≥ sig.takeProfit
      · have ht : touchTP sig c = true := by simp [touchTP, hb, h1]
        simp [scanBars, firstHitIndex, hb, h1, ht]
      · have ht : touchTP sig c = false := by simp [touchTP, hb, h1]
        by_cases h2 : c.low ≤ sig.stopLoss
        · have hs : touchSL sig c = true := by simp [touchSL, hb, h2]
          simp [scanBars, firstHitIndex, hb, h1, h2, ht, hs]
        · have hs : touchSL sig c = false := by simp [touchSL, hb, h2]
          simp only [scanBars, firstHitIndex, ht, hs, Bool.or_self, Bool.false_eq_true,
            if_pos hb, if_neg h1, if_neg h2, if_neg (by simp : ¬ (false || false) = true)]
          rw [ih (i+1)]
          cases hf : firstHitIndex sig rest with
          | none => simp
          | some j =>
            simp only [if_false, Option.map_some', List.getD_cons_succ]
            have harith : i + 1 + j + 1 = i + (j + 1) + 1 := by omega
            rw [harith]
    · by_cases h1 : c.low ≤ sig.takeProfit
      · have ht : touchTP sig c = true := by simp [touchTP, hb, h1]
        simp [scanBars, firstHitIndex, hb, h1, ht]
      · have ht : touchTP sig c = false := by simp [touchTP, hb, h1]
        by_cases h2 : c.high ≥ sig.stopLoss
        · have hs : touchSL sig c = true := by simp [touchSL, hb, h2]
          simp [scanBars, firstHitIndex, hb, h1, h2, ht, hs]
        · have hs : touchSL sig c = false := by simp [touchSL, hb, h2]
          simp only [scanBars, firstHitIndex, ht, hs, Bool.or_self, Bool.false_eq_true,
            if_neg hb, if_neg h1, if_neg h2, if_neg (by simp : ¬ (false || false) = true)]
          rw [ih (i+1)]
          cases hf : firstHitIndex sig rest with
          | none => simp
          | some j =>
            simp only [if_false, Option.map_some', List.getD_cons_succ]
            have harith : i + 1 + j + 1 = i + (j + 1) + 1 := by omega
            rw [harith]

/-- C3 (amended): `simulateOutcome` realizes exactly the first-touch
resolution contract over the 47-bar forward window `resolveOutcomeSpec`
describes — WIN at the take-profit if the first bar touching a level
touches the take-profit, LOSS at the stop-loss if it touches only the
stop-loss, EXPIRED marked to market otherwise — and, being an equality of
plain functions, the triple is the same on every run over the same
inputs. -/
theorem c3_theorem (sig : SimSignal) (candles : List Candle) (i : ℕ) :
    simulateOutcome sig candles i = resolveOutcomeSpec sig candles i := by
  by_cases hH : sig.action = Action.HOLD
  · simp [simulateOutcome, resolveOutcomeSpec, hH]
  · simp only [simulateOutcome, resolveOutcomeSpec, hH, if_false]
    rw [scanBars_eq_firstHit]
    cases hf : firstHitIndex sig (jsSlice candles (i+1) (i+48)) with
    | none => simp
    | some j =>
      simp only [Option.map_some, Nat.zero_add]
      exact apply_ite some _ _ _

theorem scanBars_win (sig : SimSignal) :
    ∀ (l : List Candle) (i j : ℕ), j < l.length →
      (∀ k, k < j → touchTP sig (l.getD k cdef) = false ∧
                    touchSL sig (l.getD k cdef) = false) →
      touchTP sig (l.getD j cdef) = true →
      scanBars sig l i = some ⟨OutcomeKind.WIN, sig.takeProfit, i + j + 1, none⟩ := by
  intro l
  induction l with
  | nil => intro i j hj; simp at hj
  | cons c rest ih =>
    intro i j hj hbef htp
    cases j with
    | zero =>
      rw [List.getD_cons_zero] at htp
      by_cases hb : sig.action = Action.BUY
      · have h1 : c.high ≥ sig.takeProfit := by simpa [touchTP, hb] using htp
        simp [scanBars, hb, h1]
      · have h1 : c.low ≤ sig.takeProfit := by simpa [touchTP, hb] using htp
        simp [scanBars, hb, h1]
    | succ n =>
      have h0 := hbef 0 (Nat.succ_pos n)
      rw [List.getD_cons_zero] at h0
      have hstep : scanBars sig (c :: rest) i = scanBars sig rest (i+1) := by
        by_cases hb : sig.action = Action.BUY
        · have ht : ¬ c.high ≥ sig.takeProfit := by simpa [touchTP, hb] using h0.1
          have hs : ¬ c.low ≤ sig.stopLoss := by simpa [touchSL, hb] using h0.2
          simp [scanBars, hb, ht, hs]
        · have ht : ¬ c.low ≤ sig.takeProfit := by simpa [touchTP, hb] using h0.1
          have hs : ¬ c.high ≥ sig.stopLoss := by simpa [touchSL, hb] using h0.2
          simp [scanBars, hb, ht, hs]
      rw [hstep]
      have hlen : n < rest.length := by
        simp only [List.length_cons] at hj
        omega
      have hrec := ih (i+1) n hlen
        (fun k hk => by
          simpa [List.getD_cons_succ] using hbef (k+1) (Nat.succ_lt_succ hk))
        (by simpa [List.getD_cons_succ] using htp)
      rw [hrec]
      have harith : i + 1 + n + 1 = i + (n + 1) + 1 := by omega
      rw [harith]

/-- C10: when the first forward bar of the scan window whose range reaches a
bracket level touches BOTH the take-profit and the stop-loss,
`simulateOutcome` classifies the trade as WIN at the take-profit: inside
each scanned bar the take-profit test runs before the stop-loss test, for
BUY and SELL alike. -/
theorem c10_theorem (sig : SimSignal) (candles : List Candle) (i j : ℕ)
    (hact : sig.action ≠ Action.HOLD)
    (hj : j < (jsSlice candles (i+1) (i+48)).length)
    (hbefore : ∀ k, k < j →
      touchTP sig ((jsSlice candles (i+1) (i+48)).getD k cdef) = false ∧
      touchSL sig ((jsSlice candles (i+1) (i+48)).getD k cdef) = false)
    (htp : touchTP sig ((jsSlice candles (i+1) (i+48)).getD j cdef) = true)
    (_hsl : touchSL sig ((jsSlice candles (i+1) (i+48)).getD j cdef) = true) :
    simulateOutcome sig candles i =
      some ⟨OutcomeKind.WIN, sig.takeProfit, j + 1, none⟩ := by
  have hscan := scanBars_win sig (jsSlice candles (i+1) (i+48)) 0 j hj hbefore htp
  simp [simulateOutcome, hact, hscan]

theorem c10_witness :
    simulateOutcome sigC10 barsC10 0 =
      some ⟨OutcomeKind.WIN, 110, 1, none⟩ := by
  have h := c10_theorem sigC10 barsC10 0 0 (by decide) (by decide)
    (fun k hk => absurd hk (Nat.not_lt_zero k)) (by decide) (by decide)
  simpa using h

/-! ### The emitted-signal invariants (C1, C4, C5, C9) -/

theorem confGate_ok {X : ℚ} {R W : List Msg} {c : ℚ} {r w : List Msg}
    (h : (if X < 40 then (Except.error [Msg.confidenceTooLow] :
            Except (List Msg) (ℚ × List Msg × List Msg))
          else Except.ok (X, R, W)) = Except.ok (c, r, w)) : 40 ≤ c := by
  split at h
  · simp at h
  · rename_i hlt
    simp only [Except.ok.injEq, Prod.mk.injEq] at h
    obtain ⟨hc, -⟩ := h
    rw [← hc]
    exact not_lt.mp hlt

theorem contextAdjust_ok_conf {action : Action} {ctx : Context}
    {momentum : Momentum} {conf0 : ℚ} {reasons0 warnings0 : List Msg}
    {c : ℚ} {r w : List Msg}
    (h : contextAdjust action ctx momentum conf0 reasons0 warnings0 =
      Except.ok (c, r, w)) : 40 ≤ c := by
  unfold contextAdjust at h
  split at h
  · simp at h
  · split at h
    · simp at h
    · exact confGate_ok h

theorem emitSignal_spec (cfg : Config) (symbol : String) (ctx : Context)
    (momentum : Momentum) (currentPrice atrValue : ℚ) (action : Action)
    (cc ec sc st : ℕ) (rs0 : List Msg)
    (h : (emitSignal cfg symbol ctx momentum currentPrice atrValue action
            cc ec sc st rs0).action ≠ Action.HOLD) :
    (emitSignal cfg symbol ctx momentum currentPrice atrValue action
        cc ec sc st rs0).action = action ∧
    40 ≤ (emitSignal cfg symbol ctx momentum currentPrice atrValue action
        cc ec sc st rs0).confidence ∧
    cfg.minRR ≤ (emitSignal cfg symbol ctx momentum currentPrice atrValue action
        cc ec sc st rs0).riskReward ∧
    (emitSignal cfg symbol ctx momentum currentPrice atrValue action
        cc ec sc st rs0).price = currentPrice ∧
    (emitSignal cfg symbol ctx momentum currentPrice atrValue action
        cc ec sc st rs0).stopLoss = bracketSL ctx currentPrice atrValue action ∧
    (emitSignal cfg symbol ctx momentum currentPrice atrValue action
        cc ec sc st rs0).takeProfit =
      bracketTP cfg ctx currentPrice atrValue action := by
  cases hca : contextAdjust action ctx momentum (baseConfidence cc st) rs0 [] with
  | error w =>
    have he : emitSignal cfg symbol ctx momentum currentPrice atrValue action
        cc ec sc st rs0 = holdResult symbol currentPrice ctx w := by
      unfold emitSignal
      rw [hca]
    rw [he] at h
    exact absurd rfl h
  | ok t =>
    obtain ⟨conf, rs, ws⟩ := t
    by_cases hrr : bracketRR cfg ctx currentPrice atrValue action < cfg.minRR
    · have he : emitSignal cfg symbol ctx momentum currentPrice atrValue action
          cc ec sc st rs0 = holdResult symbol currentPrice ctx [Msg.rrTooLow] := by
        unfold emitSignal
        rw [hca]
        exact if_pos hrr
      rw [he] at h
      exact absurd rfl h
    · have he : emitSignal cfg symbol ctx momentum currentPrice atrValue action
          cc ec sc st rs0 =
          { symbol := symbol, action := action, confidence := conf
            price := currentPrice
            stopLoss := bracketSL ctx currentPrice atrValue action
            takeProfit := bracketTP cfg ctx currentPrice atrValue action
            riskReward := bracketRR cfg ctx currentPrice atrValue action
            reasons := rs, warnings := ws, context := ctx
            confluenceCount := cc, eventCount := ec, stateCount := sc } := by
        unfold emitSignal
        rw [hca]
        exact if_neg hrr
      rw [he] at h ⊢
      exact ⟨rfl, contextAdjust_ok_conf hca, not_lt.mp hrr, rfl, rfl, rfl⟩

theorem generateSignal_branches (cfg : Config) (sym : String)
    (ind : Indicators) (ctx : Context) (mom : Momentum) (p : ℚ) :
    (∃ cc ec sc st rs0, generateSignal cfg sym ind ctx mom p =
        emitSignal cfg sym ctx mom p (atrValueOf ind p) Action.BUY
          cc ec sc st rs0) ∨
    (∃ cc ec sc st rs0, generateSignal cfg sym ind ctx mom p =
        emitSignal cfg sym ctx mom p (atrValueOf ind p) Action.SELL
          cc ec sc st rs0) ∨
    (generateSignal cfg sym ind ctx mom p).action = Action.HOLD := by
  simp only [generateSignal]
  split
  · exact Or.inl ⟨_, _, _, _, _, rfl⟩
  · split
    · exact Or.inr (Or.inl ⟨_, _, _, _, _, rfl⟩)
    · exact Or.inr (Or.inr rfl)

/-- C1: every signal whose action is not HOLD carries a confidence of at
least 40 — the confidence floor at line 577 returns HOLD below 40 and
nothing changes the confidence afterwards — and a riskReward of at least the
configured minRR — the gate at line 602 returns HOLD when the rounded
risk:reward is below minRR. -/
theorem c1_theorem (cfg : Config) (sym : String) (ind : Indicators)
    (ctx : Context) (mom : Momentum) (p : ℚ)
    (h : (generateSignal cfg sym ind ctx mom p).action ≠ Action.HOLD) :
    40 ≤ (generateSignal cfg sym ind ctx mom p).confidence ∧
    cfg.minRR ≤ (generateSignal cfg sym ind ctx mom p).riskReward := by
  rcases generateSignal_branches cfg sym ind ctx mom p with
    ⟨cc, ec, sc, st, rs0, heq⟩ | ⟨cc, ec, sc, st, rs0, heq⟩ | hH
  · rw [heq] at h ⊢
    obtain ⟨-, h40, hrr, -, -, -⟩ :=
      emitSignal_spec cfg sym ctx mom p (atrValueOf ind p) Action.BUY
        cc ec sc st rs0 h
    exact ⟨h40, hrr⟩
  · rw [heq] at h ⊢
    obtain ⟨-, h40, hrr, -, -, -⟩ :=
      emitSignal_spec cfg sym ctx mom p (atrValueOf ind p) Action.SELL
        cc ec sc st rs0 h
    exact ⟨h40, hrr⟩
  · exact absurd hH h

theorem c1_witness :
    40 ≤ (generateSignal defaultConfig "XAU/USD" indW ctxW momW 100).confidence ∧
    defaultConfig.minRR ≤
      (generateSignal defaultConfig "XAU/USD" indW ctxW momW 100).riskReward :=
  c1_theorem defaultConfig "XAU/USD" indW ctxW momW 100 (by decide)

/-- C4 (amended): every non-HOLD signal has
`stopLoss = entry ∓ atrValue × slMul` where the slMultiplier is 2.0 in
non-HIGH volatility and 2.5 in HIGH volatility (line 582) — not the claimed
2.5/3.0. -/
theorem c4_theorem (cfg : Config) (sym : String) (ind : Indicators)
    (ctx : Context) (mom : Momentum) (p : ℚ)
    (h : (generateSignal cfg sym ind ctx mom p).action ≠ Action.HOLD) :
    (generateSignal cfg sym ind ctx mom p).stopLoss =
      (if (generateSignal cfg sym ind ctx mom p).action = Action.BUY
       then p - atrValueOf ind p * slMulOf ctx
       else p + atrValueOf ind p * slMulOf ctx) := by
  rcases generateSignal_branches cfg sym ind ctx mom p with
    ⟨cc, ec, sc, st, rs0, heq⟩ | ⟨cc, ec, sc, st, rs0, heq⟩ | hH
  · rw [heq] at h ⊢
    obtain ⟨hact, -, -, -, hsl, -⟩ :=
      emitSignal_spec cfg sym ctx mom p (atrValueOf ind p) Action.BUY
        cc ec sc st rs0 h
    rw [hact, hsl]
    simp [bracketSL]
  · rw [heq] at h ⊢
    obtain ⟨hact, -, -, -, hsl, -⟩ :=
      emitSignal_spec cfg sym ctx mom p (atrValueOf ind p) Action.SELL
        cc ec sc st rs0 h
    rw [hact, hsl]
    simp [bracketSL]
  · exact absurd hH h

theorem c4_witness :
    (generateSignal defaultConfig "XAU/USD" indW ctxW momW 100).stopLoss =
      (if (generateSignal defaultConfig "XAU/USD" indW ctxW momW 100).action =
          Action.BUY
       then 100 - atrValueOf indW 100 * slMulOf ctxW
       else 100 + atrValueOf indW 100 * slMulOf ctxW) :=
  c4_theorem defaultConfig "XAU/USD" indW ctxW momW 100 (by decide)

/-- C5 (amended): every non-HOLD signal has its take-profit set to the
FARTHER of the ATR target and the opposing S/R candidate — `Math.max` for
BUY (lines 588-590), `Math.min` for SELL (lines 593-595) — and passes the
risk:reward gate `riskReward ≥ minRR`. -/
theorem c5_theorem (cfg : Config) (sym : String) (ind : Indicators)
    (ctx : Context) (mom : Momentum) (p : ℚ)
    (h : (generateSignal cfg sym ind ctx mom p).action ≠ Action.HOLD) :
    (generateSignal cfg sym ind ctx mom p).takeProfit =
      (if (generateSignal cfg sym ind ctx mom p).action = Action.BUY
       then max (p + atrValueOf ind p * slMulOf ctx * cfg.minRR)
              (if ctx.sr.resistance > p then ctx.sr.resistance
               else p + atrValueOf ind p * slMulOf ctx * cfg.minRR)
       else min (p - atrValueOf ind p * slMulOf ctx * cfg.minRR)
              (if ctx.sr.support < p then ctx.sr.support
               else p - atrValueOf ind p * slMulOf ctx * cfg.minRR)) ∧
    cfg.minRR ≤ (generateSignal cfg sym ind ctx mom p).riskReward := by
  rcases generateSignal_branches cfg sym ind ctx mom p with
    ⟨cc, ec, sc, st, rs0, heq⟩ | ⟨cc, ec, sc, st, rs0, heq⟩ | hH
  · rw [heq] at h ⊢
    obtain ⟨hact, -, hrr, -, -, htp⟩ :=
      emitSignal_spec cfg sym ctx mom p (atrValueOf ind p) Action.BUY
        cc ec sc st rs0 h
    rw [hact, htp]
    refine ⟨?_, hrr⟩
    simp [bracketTP]
  · rw [heq] at h ⊢
    obtain ⟨hact, -, hrr, -, -, htp⟩ :=
      emitSignal_spec cfg sym ctx mom p (atrValueOf ind p) Action.SELL
        cc ec sc st rs0 h
    rw [hact, htp]
    refine ⟨?_, hrr⟩
    simp [bracketTP]
  · exact absurd hH h

theorem c5_witness :
    (generateSignal defaultConfig "XAU/USD" indW ctxW momW 100).takeProfit =
      (if (generateSignal defaultConfig "XAU/USD" indW ctxW momW 100).action =
          Action.BUY
       then max (100 + atrValueOf indW 100 * slMulOf ctxW * defaultConfig.minRR)
              (if ctxW.sr.resistance > 100 then ctxW.sr.resistance
               else 100 + atrValueOf indW 100 * slMulOf ctxW * defaultConfig.minRR)
       else min (100 - atrValueOf indW 100 * slMulOf ctxW * defaultConfig.minRR)
              (if ctxW.sr.support < 100 then ctxW.sr.support
               else 100 - atrValueOf indW 100 * slMulOf ctxW * defaultConfig.minRR)) ∧
    defaultConfig.minRR ≤
      (generateSignal defaultConfig "XAU/USD" indW ctxW momW 100).riskReward :=
  c5_theorem defaultConfig "XAU/USD" indW ctxW momW 100 (by decide)

/-- C9: for a positive current price (with the indicator ATR nonnegative, as
any true-range average is, and a positive configured minRR), every emitted
bracket straddles the entry: BUY ⇒ stopLoss < price < takeProfit and SELL ⇒
takeProfit < price < stopLoss.  When ATR is missing or zero the positive
fallback `price * 0.01` keeps the bracket nondegenerate. -/
theorem c9_theorem (cfg : Config) (sym : String) (ind : Indicators)
    (ctx : Context) (mom : Momentum) (p : ℚ)
    (hp : 0 < p) (hatr : 0 ≤ ind.atr) (hrr : 0 < cfg.minRR) :
    ((generateSignal cfg sym ind ctx mom p).action = Action.BUY →
      (generateSignal cfg sym ind ctx mom p).stopLoss < p ∧
      p < (generateSignal cfg sym ind ctx mom p).takeProfit) ∧
    ((generateSignal cfg sym ind ctx mom p).action = Action.SELL →
      (generateSignal cfg sym ind ctx mom p).takeProfit < p ∧
      p < (generateSignal cfg sym ind ctx mom p).stopLoss) := by
  have hav : 0 < atrValueOf ind p := by
    by_cases hz : ind.atr = 0
    · simp only [atrValueOf, hz, if_pos]
      positivity
    · simp only [atrValueOf, hz, if_neg, if_false]
      exact lt_of_le_of_ne hatr (Ne.symm hz)
  have hm : 0 < slMulOf ctx := by
    unfold slMulOf
    split <;> norm_num
  have hpos : 0 < atrValueOf ind p * slMulOf ctx := mul_pos hav hm
  have hpos2 : 0 < atrValueOf ind p * slMulOf ctx * cfg.minRR :=
    mul_pos hpos hrr
  rcases generateSignal_branches cfg sym ind ctx mom p with
    ⟨cc, ec, sc, st, rs0, heq⟩ | ⟨cc, ec, sc, st, rs0, heq⟩ | hH
  · rw [heq]
    constructor
    · intro hact
      have hne : (emitSignal cfg sym ctx mom p (atrValueOf ind p) Action.BUY
          cc ec sc st rs0).action ≠ Action.HOLD := by
        rw [hact]
        intro hcon
        cases hcon
      obtain ⟨-, -, -, -, hsl, htp⟩ :=
        emitSignal_spec cfg sym ctx mom p (atrValueOf ind p) Action.BUY
          cc ec sc st rs0 hne
      rw [hsl, htp]
      constructor
      · rw [bracketSL, if_pos (rfl : Action.BUY = Action.BUY)]
        linarith
      · rw [bracketTP, if_pos (rfl : Action.BUY = Action.BUY)]
        have h1 : p < p + atrValueOf ind p * slMulOf ctx * cfg.minRR := by
          linarith
        exact lt_max_of_lt_left h1
    · intro hact
      have hne : (emitSignal cfg sym ctx mom p (atrValueOf ind p) Action.BUY
          cc ec sc st rs0).action ≠ Action.HOLD := by
        rw [hact]
        intro hcon
        cases hcon
      obtain ⟨hbuy, -, -, -, -, -⟩ :=
        emitSignal_spec cfg sym ctx mom p (atrValueOf ind p) Action.BUY
          cc ec sc st rs0 hne
      rw [hact] at hbuy
      cases hbuy
  · rw [heq]
    constructor
    · intro hact
      have hne : (emitSignal cfg sym ctx mom p (atrValueOf ind p) Action.SELL
          cc ec sc st rs0).action ≠ Action.HOLD := by
        rw [hact]
        intro hcon
        cases hcon
      obtain ⟨hsell, -, -, -, -, -⟩ :=
        emitSignal_spec cfg sym ctx mom p (atrValueOf ind p) Action.SELL
          cc ec sc st rs0 hne
      rw [hact] at hsell
      cases hsell
    · intro hact
      have hne : (emitSignal cfg sym ctx mom p (atrValueOf ind p) Action.SELL
          cc ec sc st rs0).action ≠ Action.HOLD := by
        rw [hact]
        intro hcon
        cases hcon
      obtain ⟨-, -, -, -, hsl, htp⟩ :=
        emitSignal_spec cfg sym ctx mom p (atrValueOf ind p) Action.SELL
          cc ec sc st rs0 hne
      rw [hsl, htp]
      constructor
      · rw [bracketTP, if_neg (by decide : ¬ Action.SELL = Action.BUY)]
        have h1 : p - atrValueOf ind p * slMulOf ctx * cfg.minRR < p := by
          linarith
        exact lt_of_le_of_lt (min_le_left _ _) h1
      · rw [bracketSL, if_neg (by decide : ¬ Action.SELL = Action.BUY)]
        linarith
  · simp [hH]

theorem c9_witness :
    (0:ℚ) < 100 ∧ 0 ≤ indW.atr ∧ 0 < defaultConfig.minRR ∧
    (((generateSignal defaultConfig "XAU/USD" indW ctxW momW 100).action =
        Action.BUY →
      (generateSignal defaultConfig "XAU/USD" indW ctxW momW 100).stopLoss <
        100 ∧
      (100:ℚ) <
        (generateSignal defaultConfig "XAU/USD" indW ctxW momW 100).takeProfit) ∧
    ((generateSignal defaultConfig "XAU/USD" indW ctxW momW 100).action =
        Action.SELL →
      (generateSignal defaultConfig "XAU/USD" indW ctxW momW 100).takeProfit <
        100 ∧
      (100:ℚ) <
        (generateSignal defaultConfig "XAU/USD" indW ctxW momW 100).stopLoss)) :=
  ⟨by decide, by decide, by decide,
   c9_theorem defaultConfig "XAU/USD" indW ctxW momW 100
     (by decide) (by decide) (by decide)⟩

end TradingAgent
